import Mathlib

/-!
Verification development for the infant vision simulator's per-frame
image-processing pipeline (src/vision.js, with the orchestrating tick in the
unnamed application module).

The JavaScript source is shallowly embedded: per-pixel arithmetic that the
source performs on IEEE doubles is modelled over exact rationals (ℚ) where the
computation is purely rational, and over the reals (ℝ) where the source calls
transcendental library functions (Math.exp, Math.atan, Math.tan, Math.sqrt,
Math.pow with fractional exponent).  One small inductive type `JSNum` models
the IEEE special values (infinities and NaN) for the single function whose
claimed behaviour depends on them.  Pixel buffers are total functions from
coordinates and channel to a sample value; Uint8ClampedArray stores are
modelled by clamping to [0, 255] followed by rounding (JavaScript rounds ties
to even, Mathlib's `round` rounds ties up; no statement below depends on an
exact half-integer tie).

The file is organised as: all definitions first, then all theorems.
-/

namespace InfantSight

/-! ## Scalar helpers (src/vision.js lines 11–45) -/

/-- `degToRad` (src/vision.js line 11). -/
noncomputable def degToRad (deg : ℝ) : ℝ := deg * Real.pi / 180

/-- `radToDeg` (src/vision.js line 15). -/
noncomputable def radToDeg (rad : ℝ) : ℝ := rad * 180 / Real.pi

/-- `clamp01` (src/vision.js line 43): `v < 0 ? 0 : v > 1 ? 1 : v`, over ℚ. -/
def clamp01 (v : ℚ) : ℚ := if v < 0 then 0 else if 1 < v then 1 else v

/-- `srgbToLinear` (src/vision.js line 35):
`v <= 0.04045 ? v / 12.92 : ((v + 0.055) / 1.055) ^ 2.4`. -/
noncomputable def srgbToLinear (v : ℝ) : ℝ :=
  if v ≤ 0.04045 then v / 12.92 else ((v + 0.055) / 1.055) ^ (2.4 : ℝ)

/-- `linearToSrgb` (src/vision.js line 39):
`v <= 0.0031308 ? 12.92 * v : 1.055 * v ^ (1 / 2.4) - 0.055`. -/
noncomputable def linearToSrgb (v : ℝ) : ℝ :=
  if v ≤ 0.0031308 then 12.92 * v else 1.055 * v ^ ((1 : ℝ) / 2.4) - 0.055

/-! ## Age presets (src/vision.js lines 83–157)

The preset record; the two string fields (`label`, `description`) carry no
behaviour and are omitted.  All numeric fields are kept as exact rationals. -/

structure ConeSensitivity where
  L : ℚ
  M : ℚ
  S : ℚ
  deriving DecidableEq

structure AgePreset where
  spatialCutoffCPD : ℚ
  peakSensitivityCPD : ℚ
  contrastSensitivityPeak : ℚ
  contrastSlope : ℚ
  temporalIntegrationMs : ℚ
  coneSensitivity : ConeSensitivity
  pupilDiameterMm : ℚ
  scatteringFactor : ℚ
  accommodationRange : ℚ
  centralFieldRadiusDeg : ℚ
  peripheralSuppression : ℚ
  lateralInhibition : ℚ
  photoreceptorNoise : ℚ
  deriving DecidableEq

/-- `AGE_PRESETS[1]` (src/vision.js lines 84–112). -/
def AGE_PRESETS_1 : AgePreset where
  spatialCutoffCPD := 1.5
  peakSensitivityCPD := 0.5
  contrastSensitivityPeak := 10
  contrastSlope := 0.65
  temporalIntegrationMs := 200
  coneSensitivity := ⟨0.6, 0.4, 0.15⟩
  pupilDiameterMm := 2.5
  scatteringFactor := 0.3
  accommodationRange := 0.2
  centralFieldRadiusDeg := 10
  peripheralSuppression := 0.7
  lateralInhibition := 0.3
  photoreceptorNoise := 0.08

/-- `AGE_PRESETS[2]` (src/vision.js lines 113–134). -/
def AGE_PRESETS_2 : AgePreset where
  spatialCutoffCPD := 2.5
  peakSensitivityCPD := 1.0
  contrastSensitivityPeak := 40
  contrastSlope := 0.75
  temporalIntegrationMs := 150
  coneSensitivity := ⟨0.85, 0.65, 0.45⟩
  pupilDiameterMm := 3.0
  scatteringFactor := 0.2
  accommodationRange := 0.4
  centralFieldRadiusDeg := 15
  peripheralSuppression := 0.5
  lateralInhibition := 0.5
  photoreceptorNoise := 0.05

/-- `AGE_PRESETS[3]` (src/vision.js lines 135–156). -/
def AGE_PRESETS_3 : AgePreset where
  spatialCutoffCPD := 4.0
  peakSensitivityCPD := 1.5
  contrastSensitivityPeak := 60
  contrastSlope := 0.85
  temporalIntegrationMs := 100
  coneSensitivity := ⟨0.95, 0.85, 0.7⟩
  pupilDiameterMm := 3.5
  scatteringFactor := 0.1
  accommodationRange := 0.6
  centralFieldRadiusDeg := 20
  peripheralSuppression := 0.3
  lateralInhibition := 0.7
  photoreceptorNoise := 0.02

/-- The preset table `AGE_PRESETS`, a JavaScript object keyed by the integers
1, 2, 3; indexing with any other key yields `undefined`, modelled as `none`. -/
def AGE_PRESETS : ℤ → Option AgePreset := fun age =>
  if age = 1 then some AGE_PRESETS_1
  else if age = 2 then some AGE_PRESETS_2
  else if age = 3 then some AGE_PRESETS_3
  else none

/-! ## LMS colour processing (src/vision.js lines 68–78 and 392–433) -/

/-- The `RGB_TO_LMS` matrix (src/vision.js lines 74–78) applied to a linear
RGB triple, exactly as at src/vision.js lines 403–405. -/
def rgbToLms (r g b : ℚ) : ℚ × ℚ × ℚ :=
  (0.31399 * r + 0.63951 * g + 0.0465 * b,
   0.15537 * r + 0.75789 * g + 0.08674 * b,
   0.01775 * r + 0.10945 * g + 0.8728 * b)

/-- The `LMS_TO_RGB` matrix (src/vision.js lines 68–72) applied to an LMS
triple, exactly as at src/vision.js lines 419–424. -/
def lmsToRgb (L M S : ℚ) : ℚ × ℚ × ℚ :=
  (5.47221 * L + -4.64196 * M + 0.16975 * S,
   -1.1248 * L + 2.29317 * M + -0.16837 * S,
   0.0298 * L + -0.19318 * M + 1.16338 * S)

/-- RGB → LMS → RGB using the two fixed matrices, with no cone scaling and no
von Kries adaptation in between: the composition claim C1 is about. -/
def lmsRoundtrip (r g b : ℚ) : ℚ × ℚ × ℚ :=
  lmsToRgb (rgbToLms r g b).1 (rgbToLms r g b).2.1 (rgbToLms r g b).2.2

/-- Per-pixel linear-light core of `applyLMSColorProcessing`
(src/vision.js lines 396–429): RGB→LMS, per-cone scaling, the simplified
von Kries blend with factor `0.8 + 0.2·selectedAge/3`, LMS→RGB, then
`clamp01` per channel.  The surrounding sRGB decode/encode (lines 398–400 and
427–429) is the gamma pair modelled by `srgbToLinear`/`linearToSrgb`. -/
def applyLMSColorPixel (cone : ConeSensitivity) (selectedAge : ℚ)
    (r g b : ℚ) : ℚ × ℚ × ℚ :=
  let lms := rgbToLms r g b
  let adaptationFactor := 0.8 + 0.2 * selectedAge / 3
  let L := lms.1 * cone.L * adaptationFactor + (1 - adaptationFactor) * 0.5
  let M := lms.2.1 * cone.M * adaptationFactor + (1 - adaptationFactor) * 0.5
  let S := lms.2.2 * cone.S * adaptationFactor + (1 - adaptationFactor) * 0.5
  let rgb := lmsToRgb L M S
  (clamp01 rgb.1, clamp01 rgb.2.1, clamp01 rgb.2.2)

/-! ## Infant colour vision (src/vision.js lines 163–216) -/

/-- Rec.709 linear luminance (src/vision.js line 177). -/
def luminance709 (r g b : ℚ) : ℚ := 0.2126 * r + 0.7152 * g + 0.0722 * b

/-- Per-pixel linear-light core of `applyInfantColorVision`
(src/vision.js lines 167–212).  All three branches take and return
linear-light channel values; the sRGB decode at lines 172–174 and encode at
lines 189–191 / 200–202 / 209–211 are the gamma pair `srgbToLinear` /
`linearToSrgb` (which map 0 ↦ 0 and 1 ↦ 1, see `srgbToLinear_zero`,
`srgbToLinear_one`). -/
def applyInfantColorPixel (preset : AgePreset) (selectedAge : ℤ)
    (rL gL bL : ℚ) : ℚ × ℚ × ℚ :=
  if selectedAge = 1 then
    (clamp01 (luminance709 rL gL bL * 0.85 + rL * preset.coneSensitivity.L * 0.25),
     clamp01 (luminance709 rL gL bL * 0.85 * preset.coneSensitivity.M),
     clamp01 (luminance709 rL gL bL * 0.85 * preset.coneSensitivity.S))
  else if selectedAge = 2 then
    (clamp01 (rL * preset.coneSensitivity.L),
     clamp01 (gL * preset.coneSensitivity.M),
     clamp01 (min (bL * preset.coneSensitivity.S) (luminance709 rL gL bL * 0.3)))
  else
    (clamp01 (rL * preset.coneSensitivity.L),
     clamp01 (gL * preset.coneSensitivity.M),
     clamp01 (bL * preset.coneSensitivity.S))

/-- The preset-dependent part of one tick, modelled from `processFrame` in the
application module: the preset is looked up as `AGE_PRESETS[selectedAge]` and
handed to `applyInfantColorVision`.  In JavaScript a missing key yields
`undefined` and every branch of `applyInfantColorVision` then dereferences a
property of it (`preset.coneSensitivity.…`), throwing a TypeError that aborts
the tick; the aborted tick is modelled as `none`. -/
def processTickColor (selectedAge : ℤ) (rL gL bL : ℚ) : Option (ℚ × ℚ × ℚ) :=
  (AGE_PRESETS selectedAge).map fun preset =>
    applyInfantColorPixel preset selectedAge rL gL bL

/-! ## Gaussian kernel generation (src/vision.js lines 278–291) -/

/-- `radius = Math.max(1, Math.floor(sigmaPx * 3))` (src/vision.js line 279).
For the non-negative sigmas this function is used with, JavaScript's
`Math.floor` coincides with `Nat.floor`. -/
noncomputable def gaussRadius (sigmaPx : ℝ) : ℕ := max 1 ⌊sigmaPx * 3⌋₊

/-- The unnormalised kernel taps (src/vision.js lines 281–288):
`kernel[i + radius] = Math.exp(-(i*i) / (2·σ·σ))` for `i ∈ [-radius, radius]`,
listed at index `j = i + radius`. -/
noncomputable def gaussKernelRaw (sigmaPx : ℝ) : List ℝ :=
  (List.range (2 * gaussRadius sigmaPx + 1)).map fun j : ℕ =>
    Real.exp (-((j : ℝ) - gaussRadius sigmaPx) ^ 2 / (2 * sigmaPx ^ 2))

/-- `generateGaussianKernel1D` (src/vision.js lines 278–291): the taps above,
each divided by their total (the normalisation loop at line 289). -/
noncomputable def generateGaussianKernel1D (sigmaPx : ℝ) : List ℝ :=
  (gaussKernelRaw sigmaPx).map fun w => w / (gaussKernelRaw sigmaPx).sum

/-! ## IEEE special values and the CSF (src/vision.js lines 258–273) -/

/-- A JavaScript number as produced by `getContrastSensitivity`: a finite
value (kept exact as a rational), one of the two infinities, or NaN. -/
inductive JSNum where
  | fin : ℚ → JSNum
  | inf : JSNum
  | ninf : JSNum
  | nan : JSNum
  deriving DecidableEq

/-- JS division of finite operands: `x / 0` is NaN when x = 0 and a signed
infinity otherwise (the zero denominator arising in the CSF is +0, an exact
difference).  `getContrastSensitivity` divides only finite operands, so the
remaining cases cannot arise there and are conservatively NaN. -/
def JSNum.div : JSNum → JSNum → JSNum
  | fin a, fin b =>
      if b = 0 then (if a = 0 then nan else if 0 < a then inf else ninf)
      else fin (a / b)
  | _, _ => nan

/-- `Math.pow(x, 2)`. -/
def JSNum.sq : JSNum → JSNum
  | fin a => fin (a * a)
  | inf => inf
  | ninf => inf
  | nan => nan

/-- JS subtraction. -/
def JSNum.sub : JSNum → JSNum → JSNum
  | nan, _ => nan
  | _, nan => nan
  | fin a, fin b => fin (a - b)
  | fin _, inf => ninf
  | fin _, ninf => inf
  | inf, fin _ => inf
  | ninf, fin _ => ninf
  | inf, inf => nan
  | ninf, ninf => nan
  | inf, ninf => inf
  | ninf, inf => ninf

/-- JS multiplication. -/
def JSNum.mul : JSNum → JSNum → JSNum
  | nan, _ => nan
  | _, nan => nan
  | fin a, fin b => fin (a * b)
  | fin a, inf => if a = 0 then nan else if 0 < a then inf else ninf
  | fin a, ninf => if a = 0 then nan else if 0 < a then ninf else inf
  | inf, fin b => if b = 0 then nan else if 0 < b then inf else ninf
  | ninf, fin b => if b = 0 then nan else if 0 < b then ninf else inf
  | inf, inf => inf
  | inf, ninf => ninf
  | ninf, inf => ninf
  | ninf, ninf => inf

/-- `Math.min`: NaN if either argument is NaN. -/
def JSNum.min : JSNum → JSNum → JSNum
  | nan, _ => nan
  | _, nan => nan
  | fin a, fin b => fin (Min.min a b)
  | ninf, _ => ninf
  | _, ninf => ninf
  | fin a, inf => fin a
  | inf, fin b => fin b
  | inf, inf => inf

/-- `Math.max`: NaN if either argument is NaN. -/
def JSNum.max : JSNum → JSNum → JSNum
  | nan, _ => nan
  | _, nan => nan
  | fin a, fin b => fin (Max.max a b)
  | inf, _ => inf
  | _, inf => inf
  | fin a, ninf => fin a
  | ninf, fin b => fin b
  | ninf, ninf => ninf

/-- Whether a JS number is finite (neither infinite nor NaN). -/
def JSNum.isFinite : JSNum → Bool
  | fin _ => true
  | _ => false

/-- `getContrastSensitivity` (src/vision.js lines 258–273) with JavaScript
IEEE semantics.  The three quantities read from the preset at lines 259–261
and the frequency are finite; special values arise (only) from the two
unguarded divisions. -/
def getContrastSensitivity (frequencyCPD : ℚ) (preset : AgePreset) : JSNum :=
  let peak := preset.peakSensitivityCPD
  let cutoff := preset.spatialCutoffCPD
  let maxSensitivity := preset.contrastSensitivityPeak
  if cutoff < frequencyCPD then JSNum.fin 0
  else
    let lowFreqFactor :=
      JSNum.min (JSNum.fin 1) (JSNum.div (JSNum.fin frequencyCPD) (JSNum.fin peak))
    let highFreqFactor :=
      JSNum.max (JSNum.fin 0) (JSNum.sub (JSNum.fin 1)
        (JSNum.sq (JSNum.div (JSNum.fin (frequencyCPD - peak)) (JSNum.fin (cutoff - peak)))))
    JSNum.mul (JSNum.mul (JSNum.fin maxSensitivity) lowFreqFactor) highFreqFactor

/-- A preset whose `spatialCutoffCPD` equals its `peakSensitivityCPD` — the
degenerate configuration the claim quantifies over; otherwise the age-1
preset. -/
def degeneratePreset : AgePreset :=
  { AGE_PRESETS_1 with spatialCutoffCPD := 0.5 }

/-! ## Chromatic aberration geometry (src/vision.js lines 449–488) -/

/-- Unit radial direction, x component (src/vision.js line 469):
0 at the exact centre, else `dx / (Math.hypot(dx, dy) || 1)`; the `|| 1`
guard replaces a zero hypot, which occurs only at the centre. -/
noncomputable def caUnitX (dx dy : ℝ) : ℝ :=
  if dx = 0 ∧ dy = 0 then 0
  else dx / (if Real.sqrt (dx ^ 2 + dy ^ 2) = 0 then 1 else Real.sqrt (dx ^ 2 + dy ^ 2))

/-- Unit radial direction, y component (src/vision.js line 470). -/
noncomputable def caUnitY (dx dy : ℝ) : ℝ :=
  if dx = 0 ∧ dy = 0 then 0
  else dy / (if Real.sqrt (dx ^ 2 + dy ^ 2) = 0 then 1 else Real.sqrt (dx ^ 2 + dy ^ 2))

/-- Normalised radial distance `Math.min(1, Math.hypot(dx, dy) / maxR)`
(src/vision.js line 468). -/
noncomputable def caRNorm (dx dy maxR : ℝ) : ℝ :=
  min 1 (Real.sqrt (dx ^ 2 + dy ^ 2) / maxR)

/-- Red-channel sampling displacement `(ux·shiftR, uy·shiftR)` with
`shiftR = −strength·rNorm` (src/vision.js lines 471 and 474–475). -/
noncomputable def caDisplacementR (strength dx dy maxR : ℝ) : ℝ × ℝ :=
  (caUnitX dx dy * (-strength * caRNorm dx dy maxR),
   caUnitY dx dy * (-strength * caRNorm dx dy maxR))

/-- Blue-channel sampling displacement with `shiftB = strength·rNorm`
(src/vision.js lines 472 and 476–477). -/
noncomputable def caDisplacementB (strength dx dy maxR : ℝ) : ℝ × ℝ :=
  (caUnitX dx dy * (strength * caRNorm dx dy maxR),
   caUnitY dx dy * (strength * caRNorm dx dy maxR))

/-! ## Pixel buffers and separable convolution
(src/vision.js lines 296–335 and 493–561) -/

/-- An RGB pixel buffer: a width×height grid of three channel samples.  The
alpha channel is constantly 255 everywhere in the pipeline (written back
unconditionally at each store) and is not tracked.  Channel values are reals;
Uint8ClampedArray stores are modelled by `clampByte`. -/
structure PixelBuffer where
  width : ℕ
  height : ℕ
  px : ℕ → ℕ → Fin 3 → ℝ

/-- Clamped sampling coordinate `Math.max(0, Math.min(n − 1, v))`
(src/vision.js lines 317, 319, 459–460). -/
def clampCoord (n : ℕ) (v : ℤ) : ℕ := (max 0 (min ((n : ℤ) - 1) v)).toNat

/-- A store into a Uint8ClampedArray: clamp to [0, 255], then round to an
integer (JavaScript rounds ties to even, `round` rounds ties up; no statement
below depends on an exact half-integer tie). -/
noncomputable def clampByte (v : ℝ) : ℝ := ((round (max 0 (min 255 v)) : ℤ) : ℝ)

/-- `applyKernelPixel` (src/vision.js lines 296–335): the value computed for
pixel (x, y) by one 1-D convolution tap-sum along the axis selected by
`horizontal`, divided by the accumulated weight sum (the same kernel weights
are accumulated whether or not a sample coordinate was clamped, so the
divisor is the whole kernel's sum), before the Uint8ClampedArray store. -/
noncomputable def convPixel (kernel : List ℝ) (src : PixelBuffer)
    (x y : ℕ) (horizontal : Bool) (c : Fin 3) : ℝ :=
  let kernelRadius := kernel.length / 2
  (∑ j in Finset.range (2 * kernelRadius + 1),
    (if horizontal then
        src.px (clampCoord src.width ((x : ℤ) + j - kernelRadius)) y c
      else
        src.px x (clampCoord src.height ((y : ℤ) + j - kernelRadius)) c) *
      kernel.getD j 0) /
  (∑ j in Finset.range (2 * kernelRadius + 1), kernel.getD j 0)

/-- One full pass of `applyKernelPixel` over every pixel (the loop pairs at
src/vision.js lines 522–532 and 536–546), writing each result into a fresh
Uint8ClampedArray. -/
noncomputable def convolvePass (kernel : List ℝ) (horizontal : Bool)
    (src : PixelBuffer) : PixelBuffer :=
  ⟨src.width, src.height, fun x y c =>
    clampByte (convPixel kernel src x y horizontal c)⟩

/-- Horizontal then vertical pass: one separable Gaussian blur. -/
noncomputable def separableBlur (kernel : List ℝ) (src : PixelBuffer) : PixelBuffer :=
  convolvePass kernel false (convolvePass kernel true src)

/-- The lateral-inhibition (Difference-of-Gaussians) component of
`applyNeuralEffects` (src/vision.js lines 512–558): guarded by
`preset.lateralInhibition > 0`; inside the guard, two separable Gaussian
blurs at `sigma1 = 0.8` and `sigma2 = 2 + 2·(1 − alpha)`, then per channel
`data − k·(blur1 − blur2)` with `k = 0.5·alpha`, clamped to [0, 255] and
stored.  (The preceding photoreceptor-noise block, lines 498–510, draws from
`Math.random` and is a separate component not modelled here.) -/
noncomputable def applyLateralInhibition (preset : AgePreset)
    (buf : PixelBuffer) : PixelBuffer :=
  if 0 < preset.lateralInhibition then
    let alpha : ℝ := min 1 ((preset.lateralInhibition : ℚ) : ℝ)
    let k1 := generateGaussianKernel1D 0.8
    let k2 := generateGaussianKernel1D (2 + 2 * (1 - alpha))
    let blur1 := separableBlur k1 buf
    let blur2 := separableBlur k2 buf
    let k := 0.5 * alpha
    ⟨buf.width, buf.height, fun x y c =>
      clampByte (buf.px x y c - k * (blur1.px x y c - blur2.px x y c))⟩
  else buf

/-- Aberration strength `(3 − selectedAge) · 0.6` px at the border
(src/vision.js line 456). -/
noncomputable def caStrength (selectedAge : ℝ) : ℝ := (3 - selectedAge) * 0.6

/-- `sampleNearest` (src/vision.js lines 458–462): nearest-neighbour sample
at a real-valued coordinate, rounded then clamped into range. -/
noncomputable def sampleNearest (src : PixelBuffer) (ix iy : ℝ) (c : Fin 3) : ℝ :=
  src.px (clampCoord src.width (round ix)) (clampCoord src.height (round iy)) c

/-- The chromatic-aberration step of `applyOpticalEffects`
(src/vision.js lines 449–487): `dst` starts as a copy of `src` and the loop
overwrites every in-range pixel — red sampled at the inward-displaced
position, green copied unshifted, blue sampled at the outward-displaced
position.  (The preceding scatter composite, lines 440–447, is a separate
canvas-filter step, not part of this function.) -/
noncomputable def applyChromaticAberration (selectedAge : ℝ)
    (src : PixelBuffer) : PixelBuffer :=
  let cx : ℝ := (src.width : ℝ) / 2
  let cy : ℝ := (src.height : ℝ) / 2
  let maxR : ℝ := Real.sqrt (cx ^ 2 + cy ^ 2)
  let strength := caStrength selectedAge
  ⟨src.width, src.height, fun x y c =>
    let dx : ℝ := (x : ℝ) - cx
    let dy : ℝ := (y : ℝ) - cy
    if c = 0 then
      sampleNearest src ((x : ℝ) + (caDisplacementR strength dx dy maxR).1)
        ((y : ℝ) + (caDisplacementR strength dx dy maxR).2) 0
    else if c = 1 then src.px x y 1
    else
      sampleNearest src ((x : ℝ) + (caDisplacementB strength dx dy maxR).1)
        ((y : ℝ) + (caDisplacementB strength dx dy maxR).2) 2⟩

/-- The age-1 preset with its lateral inhibition turned off. -/
def zeroInhibitionPreset : AgePreset :=
  { AGE_PRESETS_1 with lateralInhibition := 0 }

/-- A concrete 2×2 mid-gray buffer. -/
noncomputable def grayBuffer : PixelBuffer := ⟨2, 2, fun _ _ _ => 128⟩

/-! ## Pixels per degree and the peripheral vignette
(src/vision.js lines 20–32 and 221–252) -/

/-- The aspect ratio used by `estimatePixelsPerDegree` (src/vision.js
line 25): `width / height` when both are positive, else 16/9. -/
noncomputable def jsAspect (width height : ℝ) : ℝ :=
  if 0 < width ∧ 0 < height then width / height else 16 / 9

/-- Vertical field of view in degrees (src/vision.js lines 26–28) at the
default 60° horizontal FOV, which both call sites use. -/
noncomputable def vfovDeg (width height : ℝ) : ℝ :=
  radToDeg (2 * Real.arctan (Real.tan (degToRad 60 / 2) / jsAspect width height))

/-- `estimatePixelsPerDegree` (src/vision.js lines 20–32):
`Math.max(1, Math.min(width / hfovDeg, height / vfovDeg))` at the default
60° horizontal FOV. -/
noncomputable def estimatePixelsPerDegree (width height : ℝ) : ℝ :=
  max 1 (min (width / 60) (height / vfovDeg width height))

/-- `centralRadiusPx = Math.max(1, centralFieldRadiusDeg · ppd)`
(src/vision.js line 225). -/
noncomputable def centralRadiusPx (width height : ℝ) (preset : AgePreset) : ℝ :=
  max 1 ((preset.centralFieldRadiusDeg : ℝ) * estimatePixelsPerDegree width height)

/-- `maxRadiusPx = Math.hypot(width, height) · 0.5` (src/vision.js line 226):
the image's half-diagonal. -/
noncomputable def maxRadiusPx (width height : ℝ) : ℝ :=
  Real.sqrt (width ^ 2 + height ^ 2) * 0.5

/-- The gradient's inner radius `Math.max(1, centralRadiusPx · 0.5)`
(src/vision.js line 234). -/
noncomputable def vignetteInner (width height : ℝ) (preset : AgePreset) : ℝ :=
  max 1 (centralRadiusPx width height preset * 0.5)

/-- The gradient's outer radius `Math.max(centralRadiusPx, maxRadiusPx)`
(src/vision.js line 237). -/
noncomputable def vignetteOuter (width height : ℝ) (preset : AgePreset) : ℝ :=
  max (centralRadiusPx width height preset) (maxRadiusPx width height)

/-- A canvas radial gradient with colour stops a0 at offset 0, a1 at 0.5 and
a2 at 1, evaluated at normalised offset t: linear between adjacent stops,
constant outside [0, 1]. -/
noncomputable def threeStopGradient (a0 a1 a2 t : ℝ) : ℝ :=
  if t ≤ 0 then a0
  else if t ≤ 1/2 then a0 + (a1 - a0) * (t / (1/2))
  else if t ≤ 1 then a1 + (a2 - a1) * ((t - 1/2) / (1/2))
  else a2

/-- The source alpha the white radial gradient of `applyPeripheralVision`
(src/vision.js lines 231–247) paints at distance d from the image centre:
the colour stops are `rgba(255,255,255, α)` with α = 1, 1 − suppression·0.4
and 1 − suppression at offsets 0, 0.5 and 1, running from the inner to the
outer gradient radius.  The colour is constantly white; only the alpha
varies. -/
noncomputable def vignetteAlpha (width height : ℝ) (preset : AgePreset) (d : ℝ) : ℝ :=
  threeStopGradient 1 (1 - (preset.peripheralSuppression : ℝ) * 0.4)
    (1 - (preset.peripheralSuppression : ℝ))
    ((d - vignetteInner width height preset) /
      (vignetteOuter width height preset - vignetteInner width height preset))

/-- One channel of the canvas `multiply` compositing step over an opaque
backdrop, per the W3C compositing-and-blending model: the blended colour is
`B(Cb, Cs) = Cb·Cs` (the backdrop is opaque: every context is created with
`alpha: false` and every pipeline store writes alpha 255), and source-over
mixing with source alpha αs gives `Co = αs·(Cb·Cs) + (1 − αs)·Cb`. -/
noncomputable def multiplyCompositeOpaque (cb cs as : ℝ) : ℝ :=
  as * (cb * cs) + (1 - as) * cb

/-- The effect of `applyPeripheralVision` (src/vision.js lines 221–252) on
one backdrop channel value `cb` at distance d from the image centre: the
white gradient (`cs = 1`, alpha `vignetteAlpha`) is filled over the whole
frame with `globalCompositeOperation = "multiply"` (lines 229 and 249–250). -/
noncomputable def applyPeripheralVisionPixel (width height : ℝ) (preset : AgePreset)
    (d cb : ℝ) : ℝ :=
  multiplyCompositeOpaque cb 1 (vignetteAlpha width height preset d)

/-! ## Theorems -/

/-- sRGB-encoded 1 (a saturated channel, byte 255) decodes to linear 1. -/
theorem srgbToLinear_one : srgbToLinear 1 = 1 := by
  rw [srgbToLinear, if_neg (by norm_num)]
  norm_num

/-- sRGB-encoded 0 decodes to linear 0. -/
theorem srgbToLinear_zero : srgbToLinear 0 = 0 := by
  rw [srgbToLinear, if_pos (by norm_num)]
  norm_num

/-- C8: In the preset table, for ages 1 < 2 < 3, each of `spatialCutoffCPD`,
`contrastSensitivityPeak`, `coneSensitivity.L`, `coneSensitivity.M` and
`coneSensitivity.S` is non-decreasing with age. -/
theorem age_presets_monotone :
    AGE_PRESETS_1.spatialCutoffCPD ≤ AGE_PRESETS_2.spatialCutoffCPD ∧
    AGE_PRESETS_2.spatialCutoffCPD ≤ AGE_PRESETS_3.spatialCutoffCPD ∧
    AGE_PRESETS_1.contrastSensitivityPeak ≤ AGE_PRESETS_2.contrastSensitivityPeak ∧
    AGE_PRESETS_2.contrastSensitivityPeak ≤ AGE_PRESETS_3.contrastSensitivityPeak ∧
    AGE_PRESETS_1.coneSensitivity.L ≤ AGE_PRESETS_2.coneSensitivity.L ∧
    AGE_PRESETS_2.coneSensitivity.L ≤ AGE_PRESETS_3.coneSensitivity.L ∧
    AGE_PRESETS_1.coneSensitivity.M ≤ AGE_PRESETS_2.coneSensitivity.M ∧
    AGE_PRESETS_2.coneSensitivity.M ≤ AGE_PRESETS_3.coneSensitivity.M ∧
    AGE_PRESETS_1.coneSensitivity.S ≤ AGE_PRESETS_2.coneSensitivity.S ∧
    AGE_PRESETS_2.coneSensitivity.S ≤ AGE_PRESETS_3.coneSensitivity.S := by
  norm_num [AGE_PRESETS_1, AGE_PRESETS_2, AGE_PRESETS_3]

/-- C1: round-tripping any linear RGB triple (each channel in [0,1]) through
RGB→LMS (`RGB_TO_LMS`) and back (`LMS_TO_RGB`), with all three cone
sensitivities equal to 1 and no von Kries adaptation, reproduces the input
within 1e-2 per channel. -/
theorem lms_roundtrip_close (r g b : ℚ)
    (hr0 : 0 ≤ r) (hr1 : r ≤ 1) (hg0 : 0 ≤ g) (hg1 : g ≤ 1)
    (hb0 : 0 ≤ b) (hb1 : b ≤ 1) :
    |(lmsRoundtrip r g b).1 - r| ≤ 1/100 ∧
    |(lmsRoundtrip r g b).2.1 - g| ≤ 1/100 ∧
    |(lmsRoundtrip r g b).2.2 - b| ≤ 1/100 := by
  simp only [lmsRoundtrip, rgbToLms, lmsToRgb]
  refine ⟨?_, ?_, ?_⟩ <;> rw [abs_le] <;> constructor <;> linarith

/-- Evaluation of the round-trip bound at the concrete triple
(1/2, 1/3, 1/4). -/
theorem lms_roundtrip_close_witness :
    |(lmsRoundtrip (1/2) (1/3) (1/4)).1 - 1/2| ≤ 1/100 ∧
    |(lmsRoundtrip (1/2) (1/3) (1/4)).2.1 - 1/3| ≤ 1/100 ∧
    |(lmsRoundtrip (1/2) (1/3) (1/4)).2.2 - 1/4| ≤ 1/100 :=
  lms_roundtrip_close (1/2) (1/3) (1/4) (by norm_num) (by norm_num)
    (by norm_num) (by norm_num) (by norm_num) (by norm_num)

/-- C2: at age 1, every pixel is mapped, in linear light, to
`outR = clamp01(luminance·0.85 + rL·coneL·0.25)`,
`outG = clamp01(luminance·0.85·coneM)`, `outB = clamp01(luminance·0.85·coneS)`
with the age-1 preset's cone sensitivities; and on a saturated-red pixel
(sRGB (255,0,0), i.e. linear (1,0,0)) the linear outputs satisfy: green and
blue are near zero (≤ 0.08 and ≤ 0.03), red is at least four times either,
and the red term `rL·coneL·0.25` accounts for at least 45% of the red
output. -/
theorem infant_color_age1 :
    (∀ rL gL bL : ℚ,
      applyInfantColorPixel AGE_PRESETS_1 1 rL gL bL =
        (clamp01 (luminance709 rL gL bL * 0.85 +
            rL * AGE_PRESETS_1.coneSensitivity.L * 0.25),
         clamp01 (luminance709 rL gL bL * 0.85 * AGE_PRESETS_1.coneSensitivity.M),
         clamp01 (luminance709 rL gL bL * 0.85 * AGE_PRESETS_1.coneSensitivity.S))) ∧
    (applyInfantColorPixel AGE_PRESETS_1 1 1 0 0).2.1 ≤ 2/25 ∧
    (applyInfantColorPixel AGE_PRESETS_1 1 1 0 0).2.2 ≤ 3/100 ∧
    4 * (applyInfantColorPixel AGE_PRESETS_1 1 1 0 0).2.1 ≤
      (applyInfantColorPixel AGE_PRESETS_1 1 1 0 0).1 ∧
    4 * (applyInfantColorPixel AGE_PRESETS_1 1 1 0 0).2.2 ≤
      (applyInfantColorPixel AGE_PRESETS_1 1 1 0 0).1 ∧
    9/20 * (applyInfantColorPixel AGE_PRESETS_1 1 1 0 0).1 ≤
      1 * AGE_PRESETS_1.coneSensitivity.L * 0.25 := by
  refine ⟨fun rL gL bL => by simp [applyInfantColorPixel], ?_, ?_, ?_, ?_, ?_⟩ <;>
    norm_num [applyInfantColorPixel, luminance709, clamp01, AGE_PRESETS_1]

/-- C6: for every age key other than 1, 2, 3, the tick's colour processing
fails (no pixel output is produced) instead of defaulting to any preset's
behaviour; for the known keys it succeeds. -/
theorem unknown_age_fails (a : ℤ) (rL gL bL : ℚ)
    (h1 : a ≠ 1) (h2 : a ≠ 2) (h3 : a ≠ 3) :
    processTickColor a rL gL bL = none ∧
    (∀ out, processTickColor 1 rL gL bL ≠ none ∧
      processTickColor a rL gL bL ≠ some out) := by
  refine ⟨?_, fun out => ⟨?_, ?_⟩⟩ <;>
    simp [processTickColor, AGE_PRESETS, h1, h2, h3]

/-- Evaluation of the unknown-age behaviour at the concrete key 5. -/
theorem unknown_age_fails_witness :
    (5 : ℤ) ≠ 1 ∧ (5 : ℤ) ≠ 2 ∧ (5 : ℤ) ≠ 3 ∧
    processTickColor 5 0 0 0 = none :=
  ⟨by decide, by decide, by decide,
    (unknown_age_fails 5 0 0 0 (by decide) (by decide) (by decide)).1⟩

/-- Summing a list after dividing each element by a constant divides the sum. -/
theorem list_sum_map_div (l : List ℝ) (c : ℝ) :
    (l.map fun x => x / c).sum = l.sum / c := by
  induction l with
  | nil => simp
  | cons a t ih => simp [ih, add_div]

/-- Reading a mapped range list at an in-range index. -/
theorem getD_range_map (n j : ℕ) (f : ℕ → ℝ) (h : j < n) :
    ((List.range n).map f).getD j 0 = f j := by
  rw [List.getD_eq_getElem?_getD, List.getElem?_map, List.getElem?_range h]
  rfl

/-- Dividing every element and then reading equals reading and then dividing. -/
theorem getD_map_div (l : List ℝ) (c : ℝ) (j : ℕ) (h : j < l.length) :
    (l.map fun w => w / c).getD j 0 = l.getD j 0 / c := by
  rw [List.getD_eq_getElem _ _ (by simpa using h), List.getElem_map,
    List.getD_eq_getElem _ _ h]

/-- The unnormalised kernel has `2·radius + 1` taps. -/
theorem gaussKernelRaw_length (sigmaPx : ℝ) :
    (gaussKernelRaw sigmaPx).length = 2 * gaussRadius sigmaPx + 1 := by
  rw [gaussKernelRaw, List.length_map, List.length_range]

/-- The unnormalised kernel's tap at index j. -/
theorem gaussKernelRaw_getD (sigmaPx : ℝ) (j : ℕ) (h : j < 2 * gaussRadius sigmaPx + 1) :
    (gaussKernelRaw sigmaPx).getD j 0 =
      Real.exp (-((j : ℝ) - gaussRadius sigmaPx) ^ 2 / (2 * sigmaPx ^ 2)) := by
  rw [gaussKernelRaw, getD_range_map _ _ _ h]

/-- The centre tap of the unnormalised Gaussian kernel is `exp 0 = 1`, and
every tap is positive, so the normalising denominator is at least 1. -/
theorem gaussKernelRaw_sum_ge_one (sigmaPx : ℝ) : 1 ≤ (gaussKernelRaw sigmaPx).sum := by
  have hr : gaussRadius sigmaPx < 2 * gaussRadius sigmaPx + 1 := by omega
  have hmem : (1 : ℝ) ∈ gaussKernelRaw sigmaPx := by
    rw [gaussKernelRaw, List.mem_map]
    exact ⟨gaussRadius sigmaPx, List.mem_range.mpr hr, by simp⟩
  exact List.single_le_sum (fun x hx => by
    rw [gaussKernelRaw, List.mem_map] at hx
    obtain ⟨j, _, rfl⟩ := hx
    exact (Real.exp_pos _).le) 1 hmem

/-- The normalising denominator is positive. -/
theorem gaussKernelRaw_sum_pos (sigmaPx : ℝ) : 0 < (gaussKernelRaw sigmaPx).sum :=
  lt_of_lt_of_le one_pos (gaussKernelRaw_sum_ge_one sigmaPx)

/-- C3: for every sigma > 0, `generateGaussianKernel1D` returns a kernel of
odd length `2·max(1, ⌊3σ⌋) + 1` whose tap at index j (offset `i = j − radius`
from the centre) is `c·exp(−i²/(2σ²))` for one positive constant c, and whose
weights sum to 1 within 1e-4 (they sum to 1 exactly in real arithmetic). -/
theorem generateGaussianKernel1D_spec (sigmaPx : ℝ) (_hσ : 0 < sigmaPx) :
    (generateGaussianKernel1D sigmaPx).length = 2 * max 1 ⌊3 * sigmaPx⌋₊ + 1 ∧
    |(generateGaussianKernel1D sigmaPx).sum - 1| ≤ 1/10000 ∧
    ∃ c : ℝ, 0 < c ∧ ∀ j : ℕ, j < (generateGaussianKernel1D sigmaPx).length →
      (generateGaussianKernel1D sigmaPx).getD j 0 =
        c * Real.exp (-((j : ℝ) - gaussRadius sigmaPx) ^ 2 / (2 * sigmaPx ^ 2)) := by
  have hS := gaussKernelRaw_sum_pos sigmaPx
  have hlen : (generateGaussianKernel1D sigmaPx).length = 2 * gaussRadius sigmaPx + 1 := by
    rw [generateGaussianKernel1D, List.length_map, gaussKernelRaw_length]
  refine ⟨?_, ?_, ?_⟩
  · rw [hlen, gaussRadius, mul_comm sigmaPx 3]
  · rw [generateGaussianKernel1D, list_sum_map_div, div_self hS.ne']
    norm_num
  · refine ⟨((gaussKernelRaw sigmaPx).sum)⁻¹, inv_pos.mpr hS, fun j hj => ?_⟩
    rw [hlen] at hj
    have hj' : j < (gaussKernelRaw sigmaPx).length := by rw [gaussKernelRaw_length]; exact hj
    rw [generateGaussianKernel1D, getD_map_div _ _ _ hj', gaussKernelRaw_getD _ _ hj,
      div_eq_inv_mul]

/-- Evaluation of the kernel specification at sigma = 1: radius 3, length 7. -/
theorem generateGaussianKernel1D_spec_witness :
    (0 : ℝ) < 1 ∧ (generateGaussianKernel1D 1).length = 2 * max 1 ⌊(3 : ℝ) * 1⌋₊ + 1 ∧
    |(generateGaussianKernel1D 1).sum - 1| ≤ 1/10000 :=
  ⟨one_pos, (generateGaussianKernel1D_spec 1 one_pos).1,
    (generateGaussianKernel1D_spec 1 one_pos).2.1⟩

/-- C7 counterexample: with a preset whose cutoff equals its peak, the CSF's
unguarded `(f − peak) / (cutoff − peak)` is 0/0 = NaN at f = peak, and
`Math.max` and the final products propagate it: `getContrastSensitivity` does
not return a finite number. -/
theorem csf_nan_counterexample :
    getContrastSensitivity (1/2) degeneratePreset = JSNum.nan ∧
    (getContrastSensitivity (1/2) degeneratePreset).isFinite = false := by
  have h : getContrastSensitivity (1/2) degeneratePreset = JSNum.nan := by
    norm_num [getContrastSensitivity, degeneratePreset, AGE_PRESETS_1,
      JSNum.div, JSNum.sq, JSNum.sub, JSNum.max, JSNum.min, JSNum.mul]
  exact ⟨h, by rw [h]; rfl⟩

/-- C7 amended: (i) for every non-negative frequency and every preset whose
peak sensitivity is positive and whose cutoff differs from its peak (true of
all three table presets), `getContrastSensitivity` returns a finite number —
the epsilon guard the claim describes is absent, so a degenerate preset with
cutoff = peak instead yields NaN (see the counterexample); (ii) at the exact
image centre (zero-length radial vector) the chromatic-aberration displacement
is zero for both shifted channels; (iii) the Gaussian kernel-weight
denominator is at least 1, hence never zero. -/
theorem numeric_edge_cases_amended :
    (∀ (f : ℚ) (p : AgePreset), 0 ≤ f → 0 < p.peakSensitivityCPD →
      p.spatialCutoffCPD ≠ p.peakSensitivityCPD →
      (getContrastSensitivity f p).isFinite = true) ∧
    (∀ strength maxR : ℝ,
      caDisplacementR strength 0 0 maxR = (0, 0) ∧
      caDisplacementB strength 0 0 maxR = (0, 0)) ∧
    (∀ sigmaPx : ℝ, 1 ≤ (gaussKernelRaw sigmaPx).sum) := by
  refine ⟨fun f p _hf hp hcp => ?_, fun strength maxR => ?_,
    gaussKernelRaw_sum_ge_one⟩
  · have hp0 : p.peakSensitivityCPD ≠ 0 := hp.ne'
    have hcp0 : p.spatialCutoffCPD - p.peakSensitivityCPD ≠ 0 := sub_ne_zero.mpr hcp
    simp only [getContrastSensitivity]
    rcases lt_or_le p.spatialCutoffCPD f with h | h
    · rw [if_pos h]; rfl
    · rw [if_neg (not_lt.mpr h)]
      simp [JSNum.div, hp0, hcp0, JSNum.sq, JSNum.sub, JSNum.max, JSNum.min,
        JSNum.mul, JSNum.isFinite]
  · constructor <;> simp [caDisplacementR, caDisplacementB, caUnitX, caUnitY]

/-- Evaluation of the amended numeric-edge-case theorem at f = 1 with the
age-1 preset, strength 0.6, maxR 5 and sigma 1. -/
theorem numeric_edge_cases_amended_witness :
    ((0 : ℚ) ≤ 1 ∧ 0 < AGE_PRESETS_1.peakSensitivityCPD ∧
      AGE_PRESETS_1.spatialCutoffCPD ≠ AGE_PRESETS_1.peakSensitivityCPD) ∧
    (getContrastSensitivity 1 AGE_PRESETS_1).isFinite = true ∧
    caDisplacementR 0.6 0 0 5 = (0, 0) ∧
    1 ≤ (gaussKernelRaw 1).sum :=
  ⟨⟨by norm_num, by norm_num [AGE_PRESETS_1], by norm_num [AGE_PRESETS_1]⟩,
   numeric_edge_cases_amended.1 1 AGE_PRESETS_1 (by norm_num)
     (by norm_num [AGE_PRESETS_1]) (by norm_num [AGE_PRESETS_1]),
   (numeric_edge_cases_amended.2.1 0.6 5).1,
   numeric_edge_cases_amended.2.2 1⟩

/-- C4: with `lateralInhibition = 0` the Difference-of-Gaussians component of
`applyNeuralEffects` leaves every pixel of every buffer unchanged: the whole
DoG block sits behind the `preset.lateralInhibition > 0` guard. -/
theorem lateral_inhibition_zero_noop (preset : AgePreset) (buf : PixelBuffer)
    (h : preset.lateralInhibition = 0) :
    applyLateralInhibition preset buf = buf := by
  rw [applyLateralInhibition, if_neg]
  rw [h]
  exact lt_irrefl 0

/-- Evaluation of the DoG no-op on a concrete zero-inhibition preset and the
concrete 2×2 gray buffer. -/
theorem lateral_inhibition_zero_noop_witness :
    zeroInhibitionPreset.lateralInhibition = 0 ∧
    applyLateralInhibition zeroInhibitionPreset grayBuffer = grayBuffer :=
  ⟨rfl, lateral_inhibition_zero_noop zeroInhibitionPreset grayBuffer rfl⟩

/-- Clamping an in-range coordinate is the identity. -/
theorem clampCoord_of_lt (n x : ℕ) (h : x < n) : clampCoord n (x : ℤ) = x := by
  unfold clampCoord
  omega

/-- C9: at age 3 the aberration strength `(3 − 3)·0.6` is exactly 0, so both
channel displacements vanish and the chromatic-aberration step returns every
in-range pixel unchanged on all three channels. -/
theorem chromatic_aberration_age3_id (src : PixelBuffer) (x y : ℕ) (c : Fin 3)
    (hx : x < src.width) (hy : y < src.height) :
    caStrength 3 = 0 ∧
    (applyChromaticAberration 3 src).px x y c = src.px x y c := by
  have hs : caStrength 3 = 0 := by rw [caStrength]; norm_num
  have hdR : ∀ dx dy maxR : ℝ, caDisplacementR (caStrength 3) dx dy maxR = (0, 0) := by
    intro dx dy maxR
    rw [caDisplacementR, hs]
    norm_num
  have hdB : ∀ dx dy maxR : ℝ, caDisplacementB (caStrength 3) dx dy maxR = (0, 0) := by
    intro dx dy maxR
    rw [caDisplacementB, hs]
    norm_num
  have hsamp : ∀ c' : Fin 3, sampleNearest src (x : ℝ) (y : ℝ) c' = src.px x y c' := by
    intro c'
    rw [sampleNearest, round_natCast, round_natCast,
      clampCoord_of_lt _ _ hx, clampCoord_of_lt _ _ hy]
  refine ⟨hs, ?_⟩
  fin_cases c <;> simp [applyChromaticAberration, hdR, hdB, hsamp]

/-- Evaluation of the age-3 chromatic-aberration identity at pixel (0, 0) of
the concrete gray buffer. -/
theorem chromatic_aberration_age3_id_witness :
    (0 : ℕ) < grayBuffer.width ∧ (0 : ℕ) < grayBuffer.height ∧
    (applyChromaticAberration 3 grayBuffer).px 0 0 0 = grayBuffer.px 0 0 0 :=
  ⟨by norm_num [grayBuffer], by norm_num [grayBuffer],
   (chromatic_aberration_age3_id grayBuffer 0 0 0
     (by norm_num [grayBuffer]) (by norm_num [grayBuffer])).2⟩

/-- The vfov denominator is strictly positive for every width and height:
the aspect is positive in both branches and `tan(30°) > 0`. -/
theorem vfovDeg_pos (width height : ℝ) : 0 < vfovDeg width height := by
  have haspect : 0 < jsAspect width height := by
    rw [jsAspect]
    split
    · rename_i h
      exact div_pos h.1 h.2
    · norm_num
  have h6 : degToRad 60 / 2 = Real.pi / 6 := by rw [degToRad]; ring
  have htan : 0 < Real.tan (degToRad 60 / 2) := by
    rw [h6]
    exact Real.tan_pos_of_pos_of_lt_pi_div_two (by positivity) (by linarith [Real.pi_pos])
  have harc : 0 < Real.arctan (Real.tan (degToRad 60 / 2) / jsAspect width height) := by
    have := Real.arctan_strictMono (div_pos htan haspect)
    rwa [Real.arctan_zero] at this
  rw [vfovDeg, radToDeg]
  exact div_pos (by nlinarith) Real.pi_pos

/-- C10: `estimatePixelsPerDegree` is total and never fails: it returns at
least 1 for every width and height; the vertical-FOV divisor is strictly
positive (no division by zero, hence a finite result); non-positive width or
height substitutes the 16/9 aspect instead of raising an error; and for
non-positive width the final clamp makes the result exactly 1. -/
theorem estimatePixelsPerDegree_safe (width height : ℝ) :
    1 ≤ estimatePixelsPerDegree width height ∧
    0 < vfovDeg width height ∧
    (width ≤ 0 ∨ height ≤ 0 → jsAspect width height = 16 / 9) ∧
    (width ≤ 0 → estimatePixelsPerDegree width height = 1) := by
  refine ⟨le_max_left _ _, vfovDeg_pos width height, fun h => ?_, fun hw => ?_⟩
  · rw [jsAspect, if_neg]
    rintro ⟨h1, h2⟩
    rcases h with h | h
    · linarith
    · linarith
  · rw [estimatePixelsPerDegree]
    have hw60 : width / 60 ≤ 0 := by
      rw [div_nonpos_iff]
      right
      exact ⟨hw, by norm_num⟩
    exact max_eq_left (le_trans (min_le_left _ _) (le_trans hw60 zero_le_one))

/-- Evaluation of the pixels-per-degree safety at the degenerate frame
(−1) × 2. -/
theorem estimatePixelsPerDegree_safe_witness :
    1 ≤ estimatePixelsPerDegree (-1) 2 ∧
    jsAspect (-1) 2 = 16 / 9 ∧
    estimatePixelsPerDegree (-1) 2 = 1 :=
  ⟨(estimatePixelsPerDegree_safe (-1) 2).1,
   (estimatePixelsPerDegree_safe (-1) 2).2.2.1 (Or.inl (by norm_num)),
   (estimatePixelsPerDegree_safe (-1) 2).2.2.2 (by norm_num)⟩

/-- On a 120×360 frame the vertical FOV is exactly 120°:
`tan(30°)/(1/3) = √3` and `arctan √3 = π/3`. -/
theorem vfovDeg_120_360 : vfovDeg 120 360 = 120 := by
  have haspect : jsAspect 120 360 = 1/3 := by
    rw [jsAspect, if_pos (by norm_num)]
    norm_num
  have h6 : degToRad 60 / 2 = Real.pi / 6 := by rw [degToRad]; ring
  have hs3 : Real.sqrt 3 ≠ 0 := by positivity
  have h3 : Real.sqrt 3 * Real.sqrt 3 = 3 := Real.mul_self_sqrt (by norm_num)
  have harg : 1 / Real.sqrt 3 / (1 / 3) = Real.sqrt 3 := by
    field_simp
  have harctan : Real.arctan (Real.sqrt 3) = Real.pi / 3 := by
    rw [← Real.tan_pi_div_three]
    exact Real.arctan_tan (by linarith [Real.pi_pos]) (by linarith [Real.pi_pos])
  rw [vfovDeg, haspect, h6, Real.tan_pi_div_six, harg, harctan, radToDeg]
  field_simp
  ring

/-- On a 120×360 frame the pixels-per-degree estimate is exactly 2. -/
theorem ppd_120_360 : estimatePixelsPerDegree 120 360 = 2 := by
  rw [estimatePixelsPerDegree, vfovDeg_120_360]
  norm_num

/-- On a 120×360 frame with the age-1 preset the central-field radius is
10° · 2 px/° = 20 px. -/
theorem centralRadiusPx_120_360 : centralRadiusPx 120 360 AGE_PRESETS_1 = 20 := by
  rw [centralRadiusPx, ppd_120_360]
  norm_num [AGE_PRESETS_1]

/-- The 120×360 frame's half-diagonal is 60√10. -/
theorem maxRadiusPx_120_360 : maxRadiusPx 120 360 = 60 * Real.sqrt 10 := by
  rw [maxRadiusPx, show (120 : ℝ) ^ 2 + 360 ^ 2 = 120 ^ 2 * 10 by norm_num,
    Real.sqrt_mul (by positivity), Real.sqrt_sq (by norm_num)]
  ring

/-- Numeric bounds on √10. -/
theorem sqrt_ten_bounds : (3 : ℝ) ≤ Real.sqrt 10 ∧ Real.sqrt 10 ≤ 4 := by
  have h := Real.sq_sqrt (show (0 : ℝ) ≤ 10 by norm_num)
  have h0 := Real.sqrt_nonneg 10
  constructor <;> nlinarith

/-- C5 counterexample: multiply-compositing a white source at any alpha over
an opaque backdrop returns the backdrop, so on a 120×360 frame with the
age-1 preset a mid-gray channel value 1/2 at the central-field radius
`centralFieldRadiusDeg × ppd` is left at exactly 1/2 — it is not multiplied
by the claimed attenuation factor `1 − 0.7·0.4 = 0.72`. -/
theorem vignette_central_radius_counterexample :
    applyPeripheralVisionPixel 120 360 AGE_PRESETS_1
        ((AGE_PRESETS_1.centralFieldRadiusDeg : ℝ) * estimatePixelsPerDegree 120 360)
        (1/2) = 1/2 ∧
    applyPeripheralVisionPixel 120 360 AGE_PRESETS_1
        ((AGE_PRESETS_1.centralFieldRadiusDeg : ℝ) * estimatePixelsPerDegree 120 360)
        (1/2) ≠
      (1 - (AGE_PRESETS_1.peripheralSuppression : ℝ) * 0.4) * (1/2) := by
  have hid : applyPeripheralVisionPixel 120 360 AGE_PRESETS_1
      ((AGE_PRESETS_1.centralFieldRadiusDeg : ℝ) * estimatePixelsPerDegree 120 360)
      (1/2) = 1/2 := by
    rw [applyPeripheralVisionPixel, multiplyCompositeOpaque]
    ring
  refine ⟨hid, ?_⟩
  rw [hid]
  norm_num [AGE_PRESETS_1]

/-- The gradient's inner radius never exceeds its outer radius. -/
theorem vignetteInner_le_vignetteOuter (width height : ℝ) (preset : AgePreset) :
    vignetteInner width height preset ≤ vignetteOuter width height preset := by
  rw [vignetteInner, vignetteOuter]
  have hc1 : 1 ≤ centralRadiusPx width height preset := le_max_left _ _
  have hhalf : centralRadiusPx width height preset * 0.5 ≤ centralRadiusPx width height preset := by
    nlinarith
  exact max_le (le_trans hc1 (le_max_left _ _)) (le_trans hhalf (le_max_left _ _))

/-- C5 amended: the peripheral vignette leaves every pixel unchanged.
`applyPeripheralVision` paints its three-stop radial gradient in white
(`rgba(255,255,255, α)`, alphas 1, 1 − suppression·0.4, 1 − suppression)
under `multiply` compositing; over the opaque canvas the blended colour is
`Cb·1 = Cb` and source-over mixing by any α returns Cb again, so no
attenuation occurs at any radius — in particular the exact image-centre
pixel is unchanged, the one part of the original claim that survives. -/
theorem vignette_noop (width height : ℝ) (preset : AgePreset) (d cb : ℝ) :
    applyPeripheralVisionPixel width height preset d cb = cb ∧
    applyPeripheralVisionPixel width height preset 0 cb = cb := by
  constructor <;>
    · rw [applyPeripheralVisionPixel, multiplyCompositeOpaque]
      ring

end InfantSight
